import Mathlib

set_option autoImplicit false

/-! Verification of the Webflow data recorder's capture pipeline against its
implementation: the session-partitioned action-persistence merge of
`database/vector_db.py` and the capture orchestration of
`browser/controller.py`, including the injected client-side action-capture
script.  Machine timestamps, vector embeddings and the SQL transport are
outside the model; the merge logic, per-URL buffering, queue draining,
sensitive-value masking and cycle control flow are translated directly from
the source. -/

variable {α : Type}

/-- A value stored under one key of the `page_actions` JSONB object: either a
JSON array of actions, or some non-array JSON value. -/
inductive SessVal (α : Type) where
  | lst (l : List α)
  | nonlist
  deriving DecidableEq

/-- The `page_actions` column of a `page_embeddings` row: SQL `NULL`, a
legacy flat JSON array, a JSON object keyed by session id, or some other
JSON value (`vector_db.py` distinguishes exactly these four shapes). -/
inductive PageActionsCol (α : Type) where
  | null
  | legacy (l : List α)
  | part (m : String → Option (SessVal α))
  | other

/-- The slice of a `page_embeddings` row that the action-merge logic reads
and writes (content, embedding and timestamp columns are not modelled). -/
structure PageRow (α : Type) where
  sessionId : Option String
  pageActions : PageActionsCol α

/-- The `page_embeddings` table, keyed by its primary key `url`. -/
abbrev PagesDB (α : Type) := String → Option (PageRow α)

/-- Python `session_id or "session_unknown"`: both `None` and the empty
string are falsy, so both fall back to the reserved key. -/
def sessionKey : Option String → String
  | none => "session_unknown"
  | some s => if s = "" then "session_unknown" else s

/-- The `new_actions_obj` built by `update_page_actions` when a row already
exists (vector_db.py lines 204-222): `NULL` becomes a singleton object; a
legacy flat list is relabelled under `"legacy_default"` while the batch goes
under the session key (the Python dict literal lets the session key win on
collision); an existing object gets the batch appended to the session key's
list, or the key set when absent or not a list; any other shape is replaced
by a singleton object. -/
def mergeObj (pa : PageActionsCol α) (sk : String) (actions : List α) :
    String → Option (SessVal α) :=
  match pa with
  | .null => fun k => if k = sk then some (.lst actions) else none
  | .legacy l => fun k =>
      if k = sk then some (.lst actions)
      else if k = "legacy_default" then some (.lst l) else none
  | .part m => fun k =>
      if k = sk then
        some (.lst (match m sk with
          | some (.lst old) => old ++ actions
          | _ => actions))
      else m k
  | .other => fun k => if k = sk then some (.lst actions) else none

/-- `update_page_actions(url, actions, session_id)` acting on the table
state.  A falsy url or an empty batch returns without writing; otherwise an
existing row's `page_actions` is replaced by the merged object (with
`session_id = COALESCE(new, old)`), and a missing row is inserted with the
batch as the sole session partition. -/
def update_page_actions (db : PagesDB α) (url : String) (actions : List α)
    (session_id : Option String) : PagesDB α :=
  if url = "" ∨ actions.isEmpty = true then db
  else
    let sk := sessionKey session_id
    fun u =>
      if u = url then
        match db url with
        | some row =>
            some { sessionId := match session_id with
                     | some s => some s
                     | none => row.sessionId
                   pageActions := .part (mergeObj row.pageActions sk actions) }
        | none =>
            some { sessionId := session_id
                   pageActions :=
                     .part (fun k => if k = sk then some (.lst actions) else none) }
      else db u

/-- The value stored under session key `k` of `url`'s partitioned action
store (`none` when the row, the store, or the key is missing, or the store
is not in partitioned form). -/
def sessList (db : PagesDB α) (url k : String) : Option (SessVal α) :=
  match db url with
  | some row =>
      match row.pageActions with
      | .part m => m k
      | _ => none
  | none => none

/-- The `page_actions` store of `url`'s row, if the row exists. -/
def pageActionsAt (db : PagesDB α) (url : String) : Option (PageActionsCol α) :=
  match db url with
  | some row => some row.pageActions
  | none => none

/-! **Client-side action capture protocol** (`inject_action_listeners` in
`browser/controller.py`): the JavaScript injected into every page.  The
model covers the sensitivity test and the per-event `data` payload; XPath
computation, label resolution and listener registration are not needed by
the claims. -/

/-- JavaScript `haystack.includes(needle)`: substring containment. -/
def strContains (h needle : String) : Bool :=
  (List.range (h.data.length + 1)).any fun i => needle.data.isPrefixOf (h.data.drop i)

/-- JavaScript `toLowerCase()` on the character list (identical to
`String.toLower`, written directly over the data list). -/
def lowerStr (s : String) : String := ⟨s.data.map Char.toLower⟩

/-- The sensitivity keyword list of `isSensitive` in the injected script. -/
def needles : List String :=
  ["password", "pass", "pwd", "secret", "token", "ssn", "sin",
   "credit", "card", "cvc", "cvv", "pin"]

/-- The attributes of a DOM form control that the injected capture script
reads: `type` is the control's declared type (e.g. `"password"`,
`"select-one"`), `tagName` the element name (e.g. `"INPUT"`, `"SELECT"`),
`selectedText` the text of the currently selected option of a select. -/
structure Element where
  name : String
  id : String
  type : String
  placeholder : String
  autocomplete : String
  ariaLabel : String
  tagName : String
  value : String
  selectedText : String
  checked : Bool
  deriving DecidableEq

/-- `isSensitive(el)` from the injected script: declared type `password`, or
a sensitivity keyword occurring in any of the lower-cased
name/id/placeholder/autocomplete/aria-label/type strings. -/
def isSensitive (el : Element) : Bool :=
  let n := lowerStr el.name
  let i := lowerStr el.id
  let t := lowerStr el.type
  let ph := lowerStr el.placeholder
  let ac := lowerStr el.autocomplete
  let label := lowerStr el.ariaLabel
  t == "password" ||
    ([n, i, ph, ac, label, t].any fun h => needles.any fun k => strContains h k)

/-- The sensitivity condition exactly as the specification words it:
declared type `password`, or a sensitivity keyword contained in one of the
name/id/placeholder/autocomplete/aria-label attributes (the code
additionally searches the type string, which only widens the condition). -/
def specSensitive (el : Element) : Bool :=
  lowerStr el.type == "password" ||
    ([lowerStr el.name, lowerStr el.id, lowerStr el.placeholder,
      lowerStr el.autocomplete, lowerStr el.ariaLabel].any
        fun h => needles.any fun k => strContains h k)

/-- `((target.type || target.tagName) || '').toLowerCase()` from
`buildAction`. -/
def fieldTypeOf (el : Element) : String :=
  lowerStr (if el.type = "" then el.tagName else el.type)

/-- The lower-cased tag name (`tName` in `buildAction`). -/
def tagLower (el : Element) : String := lowerStr el.tagName

/-- The `data` payload of an `input` or `change` Action (absent JavaScript
object properties are modelled as `none`). -/
structure InputChangeData where
  value : Option String
  text : Option String
  checked : Option Bool
  sensitive : Bool
  deriving DecidableEq

/-- `buildAction`'s payload construction for `type === 'input' || 'change'`:
checkbox/radio controls record their checked state; selects record their raw
value and selected-option text; every other control records its value,
masked to `"***"` when sensitive. -/
def inputChangeData (el : Element) : InputChangeData :=
  let ft := fieldTypeOf el
  let sens := isSensitive el
  let checked := if ft = "checkbox" ∨ ft = "radio" then some el.checked else none
  if tagLower el = "select" then
    { value := some el.value, text := some el.selectedText,
      checked := checked, sensitive := sens }
  else if ft ≠ "checkbox" ∧ ft ≠ "radio" then
    { value := some (if sens then "***" else el.value), text := none,
      checked := checked, sensitive := sens }
  else
    { value := none, text := none, checked := checked, sensitive := sens }

/-- A form-field value in a submit payload: JavaScript stores either the
boolean checked state or a string there. -/
inductive FieldVal where
  | b (c : Bool)
  | s (v : String)
  deriving DecidableEq

/-- One entry of the `fields` list gathered on form submission. -/
structure SubmitField where
  name : String
  id : String
  type : String
  value : FieldVal
  sensitive : Bool
  deriving DecidableEq

/-- `buildAction`'s per-element entry for the `submit` payload:
checkbox/radio record the checked flag, selects record the raw value, and
every other control records its value masked to `"***"` when sensitive. -/
def submitField (el : Element) : SubmitField :=
  let elType := fieldTypeOf el
  let sens := isSensitive el
  let value : FieldVal :=
    if elType = "checkbox" ∨ elType = "radio" then .b el.checked
    else if tagLower el = "select" then .s el.value
    else .s (if sens then "***" else el.value)
  { name := el.name, id := el.id, type := elType, value := value, sensitive := sens }

/-- The full `fields` list of a submit Action (`form.elements` mapped
through the per-element entry builder). -/
def submitFields (els : List Element) : List SubmitField := els.map submitField

/-- Decides whether a submit-payload value is safe for a sensitive field:
either a checked flag or the mask token. -/
def fieldValMasked : FieldVal → Bool
  | .b _ => true
  | .s v => v == "***"

/-! **Host-side capture orchestration** (`browser/controller.py`): the
per-tab instrumentation state, queue draining, per-URL action buffering,
the tab sweep of `capture_all_tabs`, alert handling, and one iteration of
the `capture_web_actions` poll loop.  The browser is assumed alive (the
liveness checks and exception paths are external failures); page-content
fingerprints (`hash(html_content)`) are modelled by the content string
itself, which only strengthens the collision-free assumption the detector
already makes. -/

/-- One browsing context as the capture loop sees it: the Selenium window
handle, current URL and page source, plus the page-global instrumentation
state — `installed` is `window.__flowListenersInstalled` and `queue` is
`window.__flowActionQueue` (`none` models the variable being undefined). -/
structure Tab (α : Type) where
  handle : String
  url : String
  content : String
  installed : Bool
  queue : Option (List α)

/-- `inject_action_listeners()`: re-entrant installation of the capture
script; on an already-instrumented page it returns early, otherwise it sets
the installed flag and creates the empty action queue. -/
def inject_action_listeners (t : Tab α) : Tab α :=
  if t.installed then t
  else { t with installed := true, queue := some [] }

/-- `drain_action_queue()`: one script execution that returns
`window.__flowActionQueue || []` and resets the queue to `[]`; extraction
and clearing happen in the same (atomic, from the page's view) step. -/
def drain_action_queue (t : Tab α) : List α × Tab α :=
  (t.queue.getD [], { t with queue := some [] })

/-- The per-URL accumulator `page_action_logs` (`{ url: {"actions": [...]}}`;
`none` models the URL not yet having a buffer). -/
abbrev ActionLogs (α : Type) := String → Option (List α)

/-- `process_new_actions(tab_url, actions)`: extend the per-URL buffer with
the batch and persist the **whole buffer** via `update_page_actions`; note
that no session id is passed to the merge. -/
def process_new_actions (logs : ActionLogs α) (db : PagesDB α)
    (tab_url : String) (actions : List α) : ActionLogs α × PagesDB α :=
  if actions.isEmpty then (logs, db)
  else
    let buf := (logs tab_url).getD [] ++ actions
    (fun u => if u = tab_url then some buf else logs u,
     update_page_actions db tab_url buf none)

/-- One page-visit record synthesized by `record_action` (stored to the
graph and vector databases; the embedding computation and the metadata
extraction are pure transforms outside the claims, so the record keeps the
raw text). -/
structure PageRecord where
  url : String
  isAlert : Bool
  text : String
  referrer : Option String
  sessionId : Option String
  deriving DecidableEq

/-- The capture worker's state: the browsing contexts, the active window's
URL, a possibly pending modal dialog, the previously known window set
(`all_windows`), the per-URL action buffer, the persistence table, the
trace of synthesized page records, the content-change detector's map
(`processed_urls`), `last_url`, the current recording session (owned by the
external `history_manager`), counters of the dialog-interface calls issued
(`accept()` vs `dismiss()`), and a clock supplying `time.time()` values. -/
structure SysState (α : Type) where
  tabs : List (Tab α)
  currentUrl : String
  pendingDialog : Option String
  knownWindows : List String
  page_action_logs : ActionLogs α
  db : PagesDB α
  records : List PageRecord
  processedUrls : String → Option String
  lastUrl : String
  currentSession : Option String
  acceptedDialogs : Nat
  dismissedDialogs : Nat
  clock : Nat

/-- `record_action(url, metadata, content, referrer)`: append one record
tagged with the current session id. -/
def record_action (st : SysState α) (url : String) (isAlert : Bool)
    (text : String) (referrer : Option String) : SysState α :=
  { st with records := st.records ++
      [{ url := url, isAlert := isAlert, text := text, referrer := referrer,
         sessionId := st.currentSession }] }

/-- One result entry of `capture_all_tabs` (`{"url":…, "content":…,
"is_new":…, "events":…}`). -/
structure TabResult (α : Type) where
  url : String
  content : String
  isNew : Bool
  events : List α
  deriving DecidableEq

/-- The loop-carried state of the window sweep in `capture_all_tabs`. -/
structure CaptureAcc (α : Type) where
  tabs : List (Tab α)
  results : List (TabResult α)
  logs : ActionLogs α
  db : PagesDB α

/-- The body of the `for handle in browser.window_handles` loop: install
listeners, drain pending actions, then either route an `about:blank` tab's
actions straight to persistence without producing a result, or append a
result carrying the drained events. -/
def captureTabStep (known : List String) (acc : CaptureAcc α) (t : Tab α) :
    CaptureAcc α :=
  let t1 := inject_action_listeners t
  let pending := (drain_action_queue t1).1
  let t2 := (drain_action_queue t1).2
  if t2.url = "about:blank" then
    if pending.isEmpty then { acc with tabs := acc.tabs ++ [t2] }
    else
      let pd := process_new_actions acc.logs acc.db t2.url pending
      { tabs := acc.tabs ++ [t2], results := acc.results, logs := pd.1, db := pd.2 }
  else
    { acc with
        tabs := acc.tabs ++ [t2],
        results := acc.results ++
          [{ url := t2.url, content := t2.content,
             isNew := !(known.contains t.handle), events := pending }] }

/-- `capture_all_tabs()`: sweep every window, replace `all_windows` with the
current handle set, and return the per-tab results together with the active
window's URL (the updated state carries the instrumented tabs, buffers and
table). -/
def capture_all_tabs (st : SysState α) : List (TabResult α) × SysState α :=
  let acc := st.tabs.foldl (captureTabStep st.knownWindows)
    { tabs := [], results := [], logs := st.page_action_logs, db := st.db }
  (acc.results,
   { st with tabs := acc.tabs, knownWindows := st.tabs.map Tab.handle,
             page_action_logs := acc.logs, db := acc.db })

/-- `check_alerts()`: with a bounded sub-second wait, look for a pending
modal dialog.  If one is present, record its text as one alert-tagged
pseudo page visit keyed by `f"{url}#alert-{int(time.time())}"`, `accept()`
the dialog (the code has no `dismiss()` path) and return `True`; otherwise
return `False` with no side effects. -/
def check_alerts (st : SysState α) : Bool × SysState α :=
  match st.pendingDialog with
  | some text =>
      let alertUrl := st.currentUrl ++ "#alert-" ++ toString st.clock
      let st1 := record_action st alertUrl true text (some st.currentUrl)
      (true, { st1 with pendingDialog := none,
                        acceptedDialogs := st.acceptedDialogs + 1,
                        clock := st.clock + 1 })
  | none => (false, st)

/-- How one iteration of the poll loop ended: `alertHandled` is the
`continue` after `check_alerts()` succeeded — tab enumeration is skipped
and the poll retried immediately, without the 0.5 s inter-cycle pause taken
on the `polled` path. -/
inductive CycleOutcome where
  | alertHandled
  | polled
  deriving DecidableEq

/-- The per-result body of the `for tab_data in tabs_data` loop of
`capture_web_actions`: route drained events to persistence, then apply
content-change detection — on a first sighting or changed fingerprint,
record the page (with the referrer inferred from newness or a prior
sighting) and update the stored fingerprint. -/
def processResultStep (acc : SysState α) (r : TabResult α) : SysState α :=
  let acc1 :=
    if r.events.isEmpty then acc
    else
      let pd := process_new_actions acc.page_action_logs acc.db r.url r.events
      { acc with page_action_logs := pd.1, db := pd.2 }
  if acc1.processedUrls r.url = some r.content then acc1
  else
    let referrer : Option String :=
      if r.isNew then some acc1.lastUrl
      else if (acc1.processedUrls r.url).isSome then some r.url
      else none
    let acc2 := record_action acc1 r.url false r.content referrer
    { acc2 with processedUrls :=
        fun u => if u = r.url then some r.content else acc2.processedUrls u }

/-- One iteration of the `while not stop_capturing` body of
`capture_web_actions` (browser alive, no driver exception): alerts are
checked first, and a handled alert makes the iteration `continue` without
enumerating tabs; otherwise all tabs are captured, each result is processed
and `last_url` is refreshed before the inter-cycle pause. -/
def loopIteration (st : SysState α) : SysState α × CycleOutcome :=
  let ca := check_alerts st
  if ca.1 then (ca.2, .alertHandled)
  else
    let cap := capture_all_tabs ca.2
    let st3 := cap.1.foldl processResultStep cap.2
    ({ st3 with lastUrl := st.currentUrl }, .polled)

/-! **Claim theorems.** -/

/-- C8: calling the persistence merge with an empty action batch performs no
write — the table (this URL's row and every other URL's row) is returned
exactly as it was. -/
theorem c8_empty_batch_is_noop (db : PagesDB α) (url : String)
    (sid : Option String) : update_page_actions db url [] sid = db := by
  simp [update_page_actions]

/-- C6: draining extracts the full current queue and clears it in the same
single step (one state transition models the one atomic script execution),
so a second drain with no intervening events returns an empty batch. -/
theorem c6_drain_exactly_once (t : Tab α) :
    (drain_action_queue t).1 = t.queue.getD [] ∧
    (drain_action_queue t).2.queue = some [] ∧
    (drain_action_queue (drain_action_queue t).2).1 = [] := by
  simp [drain_action_queue]

/-- C1: merging a non-empty batch under session key `sessionKey sid` into a
URL whose store is session-partitioned leaves the entry of every other
session key untouched. -/
theorem c1_merge_preserves_other_sessions (db : PagesDB α) (url : String)
    (actions : List α) (sid : Option String) (S' : String) (row : PageRow α)
    (m : String → Option (SessVal α))
    (hne : S' ≠ sessionKey sid) (hacts : actions ≠ [])
    (hrow : db url = some row) (hpa : row.pageActions = .part m) :
    sessList (update_page_actions db url actions sid) url S' = m S' := by
  by_cases hu : url = ""
  · subst hu
    simp [update_page_actions, sessList, hrow, hpa]
  · have hg : ¬(url = "" ∨ actions.isEmpty = true) := by
      simp [hu, hacts]
    simp [update_page_actions, if_neg hg, sessList, hrow, hpa, mergeObj, hne]

/-- Concrete two-session store witnessing C1. -/
def c1m : String → Option (SessVal Nat) :=
  fun k => if k = "s2" then some (.lst [9]) else none

/-- Concrete one-row table witnessing C1. -/
def c1db : PagesDB Nat :=
  fun u => if u = "u" then some { sessionId := none, pageActions := .part c1m }
    else none

/-- Witness for C1 at a concrete table, batch and session pair. -/
theorem c1_witness :
    ("s2" : String) ≠ sessionKey (some "s1") ∧ ([1] : List Nat) ≠ [] ∧
    sessList (update_page_actions c1db "u" [1] (some "s1")) "u" "s2" = c1m "s2" :=
  ⟨by decide, by decide,
   c1_merge_preserves_other_sessions c1db "u" [1] (some "s1") "s2"
     { sessionId := none, pageActions := .part c1m } c1m
     (by decide) (by decide) rfl rfl⟩

/-- C2: for a URL with no prior buffer and no prior row, processing drained
batch `B1` and then `B2` re-sends the whole accumulated buffer, so the
persisted list under the session key is `B1 ++ B1 ++ B2` — not the
concatenation of the drained batches. -/
theorem c2_rebuffered_batches_duplicate (logs : ActionLogs α) (db : PagesDB α)
    (url : String) (B1 B2 : List α)
    (hu : url ≠ "") (h1 : B1 ≠ []) (h2 : B2 ≠ [])
    (hl : logs url = none) (hd : db url = none) :
    sessList (process_new_actions (process_new_actions logs db url B1).1
        (process_new_actions logs db url B1).2 url B2).2 url "session_unknown"
      = some (.lst (B1 ++ B1 ++ B2)) ∧
    B1 ++ B1 ++ B2 ≠ B1 ++ B2 := by
  constructor
  · simp [process_new_actions, update_page_actions, sessList, mergeObj,
      sessionKey, hl, hd, hu, h1, h2]
  · intro hEq
    have hlen := congrArg List.length hEq
    simp only [List.length_append] at hlen
    exact h1 (List.length_eq_zero.mp (by omega))

/-- Witness for C2 on the empty buffer and table. -/
theorem c2_witness :
    ("u" : String) ≠ "" ∧ ([1] : List Nat) ≠ [] ∧ ([2] : List Nat) ≠ [] ∧
    sessList (process_new_actions
        (process_new_actions (fun _ => none : ActionLogs Nat)
          (fun _ => none : PagesDB Nat) "u" [1]).1
        (process_new_actions (fun _ => none : ActionLogs Nat)
          (fun _ => none : PagesDB Nat) "u" [1]).2 "u" [2]).2 "u" "session_unknown"
      = some (.lst ([1] ++ [1] ++ [2])) ∧
    [1] ++ [1] ++ [2] ≠ [1] ++ [2] :=
  ⟨by decide, by decide, by decide,
   (c2_rebuffered_batches_duplicate (fun _ => none) (fun _ => none) "u" [1] [2]
     (by decide) (by decide) (by decide) rfl rfl).1,
   (c2_rebuffered_batches_duplicate (fun _ => none) (fun _ => none) "u" [1] [2]
     (by decide) (by decide) (by decide) rfl rfl).2⟩

/-- C3 (amended): the capture loop routes every drained batch to
persistence keyed by the owning URL but passes no session identifier, so
whatever recording session is active, the batch is stored under the fixed
fallback key `"session_unknown"` and under no other session key. -/
theorem c3_amended_stored_under_fallback_key (logs : ActionLogs α)
    (db : PagesDB α) (url : String) (actions : List α)
    (hu : url ≠ "") (ha : actions ≠ [])
    (hl : logs url = none) (hd : db url = none) :
    sessList (process_new_actions logs db url actions).2 url "session_unknown"
      = some (.lst actions) ∧
    ∀ k, k ≠ "session_unknown" →
      sessList (process_new_actions logs db url actions).2 url k = none := by
  constructor
  · simp [process_new_actions, update_page_actions, sessList, mergeObj,
      sessionKey, hl, hd, hu, ha]
  · intro k hk
    simp [process_new_actions, update_page_actions, sessList, mergeObj,
      sessionKey, hl, hd, hu, ha, hk]

/-- Concrete capture-loop state with an active recording session `"s1"` and
one instrumented tab holding one queued action, used to refute C3 as
stated. -/
def c3st : SysState Nat :=
  { tabs := [{ handle := "h", url := "u", content := "c",
               installed := true, queue := some [7] }],
    currentUrl := "u",
    pendingDialog := none,
    knownWindows := ["h"],
    page_action_logs := fun _ => none,
    db := fun _ => none,
    records := [],
    processedUrls := fun u => if u = "u" then some "c" else none,
    lastUrl := "u",
    currentSession := some "s1",
    acceptedDialogs := 0,
    dismissedDialogs := 0,
    clock := 0 }

/-- Counterexample to C3 as stated: with recording session `"s1"` active, a
full poll cycle stores the drained batch under `"session_unknown"`, and
nothing at all under the active session's key `"s1"`. -/
theorem c3_counterexample :
    c3st.currentSession = some "s1" ∧
    sessList (loopIteration c3st).1.db "u" "s1" = none ∧
    sessList (loopIteration c3st).1.db "u" "session_unknown"
      = some (.lst [7]) := by
  refine ⟨rfl, ?_, ?_⟩ <;> decide

/-- The legacy-migration result exactly as the specification words it: the
old flat list relabelled under the reserved legacy key, the new batch under
the session key, nothing else. -/
def specLegacyResult (l actions : List α) (sk : String) :
    String → Option (SessVal α) :=
  fun k => if k = "legacy_default" then some (.lst l)
    else if k = sk then some (.lst actions) else none

/-- C5 (amended): merging a non-empty batch into a legacy flat-list store
relabels the old list under `"legacy_default"` and adds the batch under the
session key, dropping nothing — provided the session key differs from the
reserved legacy key (when it coincides, the dict literal lets the batch
overwrite the legacy entries; see the counterexample). -/
theorem c5_legacy_migration (db : PagesDB α) (url : String)
    (l actions : List α) (sid : Option String) (row : PageRow α)
    (hu : url ≠ "") (ha : actions ≠ []) (hrow : db url = some row)
    (hleg : row.pageActions = .legacy l)
    (hk : sessionKey sid ≠ "legacy_default") :
    pageActionsAt (update_page_actions db url actions sid) url
      = some (.part (specLegacyResult l actions (sessionKey sid))) := by
  have hg : ¬(url = "" ∨ actions.isEmpty = true) := by simp [hu, ha]
  have hmap : mergeObj (PageActionsCol.legacy l) (sessionKey sid) actions
      = specLegacyResult l actions (sessionKey sid) := by
    funext k
    by_cases h1 : k = sessionKey sid
    · subst h1; simp [mergeObj, specLegacyResult, hk]
    · by_cases h2 : k = "legacy_default" <;>
        simp [mergeObj, specLegacyResult, h1, h2, Ne.symm hk]
  simp [update_page_actions, if_neg hg, pageActionsAt, hrow, hleg, hmap]

/-- Concrete one-row table in legacy flat-list form for C5. -/
def c5db : PagesDB Nat :=
  fun u => if u = "u" then some { sessionId := none, pageActions := .legacy [0, 1] }
    else none

/-- Counterexample to C5 as universally stated: merging under session id
`"legacy_default"` makes the batch overwrite the relabelled legacy list, so
the legacy entries `[0, 1]` are dropped. -/
theorem c5_counterexample :
    sessList (update_page_actions c5db "u" [2] (some "legacy_default"))
        "u" "legacy_default" = some (.lst [2]) ∧
    some (SessVal.lst ([2] : List Nat)) ≠ some (.lst [0, 1]) := by
  constructor <;> decide

/-- Witness for the amended C5: the spec's own scenario, `[0,1]` merged
with `[2]` under session `"s1"`. -/
theorem c5_witness :
    ("u" : String) ≠ "" ∧ ([2] : List Nat) ≠ [] ∧
    sessionKey (some "s1") ≠ "legacy_default" ∧
    pageActionsAt (update_page_actions c5db "u" [2] (some "s1")) "u"
      = some (.part (specLegacyResult [0, 1] [2] (sessionKey (some "s1")))) :=
  ⟨by decide, by decide, by decide,
   c5_legacy_migration c5db "u" [0, 1] [2] (some "s1")
     { sessionId := none, pageActions := .legacy [0, 1] }
     (by decide) (by decide) rfl rfl (by decide)⟩

/-- Two merges under distinct, non-legacy session keys build the same
partition map in either order. -/
theorem mergeObj_comm (pa : PageActionsCol α) (k1 k2 : String)
    (B1 B2 : List α) (h12 : k1 ≠ k2)
    (h1 : k1 ≠ "legacy_default") (h2 : k2 ≠ "legacy_default") :
    mergeObj (.part (mergeObj pa k1 B1)) k2 B2
      = mergeObj (.part (mergeObj pa k2 B2)) k1 B1 := by
  have h21 : k2 ≠ k1 := Ne.symm h12
  funext k
  by_cases e1 : k = k1 <;> by_cases e2 : k = k2
  · exact absurd (e1.symm.trans e2) h12
  · subst e1
    cases pa <;> simp [mergeObj, h12, h21, h1]
  · subst e2
    cases pa <;> simp [mergeObj, h12, h21, h2]
  · cases pa <;> simp [mergeObj, e1, e2]

/-- C7 (amended): for any starting table, merging two batches whose derived
session keys are distinct and both different from the reserved legacy key
yields the same final action store for the URL in either order. -/
theorem c7_merge_commutes_amended (db : PagesDB α) (url : String)
    (B1 B2 : List α) (sid1 sid2 : Option String)
    (h12 : sessionKey sid1 ≠ sessionKey sid2)
    (h1 : sessionKey sid1 ≠ "legacy_default")
    (h2 : sessionKey sid2 ≠ "legacy_default") :
    pageActionsAt (update_page_actions
        (update_page_actions db url B1 sid1) url B2 sid2) url
      = pageActionsAt (update_page_actions
        (update_page_actions db url B2 sid2) url B1 sid1) url := by
  by_cases hu : url = ""
  · subst hu; simp [update_page_actions]
  by_cases hB1 : B1 = []
  · subst hB1; simp [update_page_actions]
  by_cases hB2 : B2 = []
  · subst hB2; simp [update_page_actions]
  have hg1 : ¬(url = "" ∨ B1.isEmpty = true) := by simp [hu, hB1]
  have hg2 : ¬(url = "" ∨ B2.isEmpty = true) := by simp [hu, hB2]
  simp only [update_page_actions, if_neg hg1, if_neg hg2, pageActionsAt]
  cases hdb : db url with
  | none =>
      simp [hdb]
      exact mergeObj_comm PageActionsCol.null _ _ B1 B2 h12 h1 h2
  | some row =>
      simp [hdb]
      exact mergeObj_comm row.pageActions _ _ B1 B2 h12 h1 h2

/-- Concrete legacy-form table for the C7 counterexample. -/
def c7db : PagesDB Nat :=
  fun u => if u = "u" then some { sessionId := none, pageActions := .legacy [0] }
    else none

/-- Counterexample to C7 as universally stated: on a legacy store, merging
under `"legacy_default"` and `"s2"` is order-dependent — the legacy key ends
up holding `[1]` in one order and `[0, 1]` in the other. -/
theorem c7_counterexample :
    sessList (update_page_actions (update_page_actions c7db "u" [1]
        (some "legacy_default")) "u" [2] (some "s2")) "u" "legacy_default"
      = some (.lst [1]) ∧
    sessList (update_page_actions (update_page_actions c7db "u" [2]
        (some "s2")) "u" [1] (some "legacy_default")) "u" "legacy_default"
      = some (.lst [0, 1]) ∧
    some (SessVal.lst ([1] : List Nat)) ≠ some (.lst [0, 1]) := by
  refine ⟨?_, ?_, ?_⟩ <;> decide

/-- Witness for the amended C7 on the empty table and two fresh sessions. -/
theorem c7_witness :
    sessionKey (some "a") ≠ sessionKey (some "b") ∧
    sessionKey (some "a") ≠ "legacy_default" ∧
    sessionKey (some "b") ≠ "legacy_default" ∧
    pageActionsAt (update_page_actions (update_page_actions
        (fun _ => none : PagesDB Nat) "u" [1] (some "a")) "u" [2] (some "b")) "u"
      = pageActionsAt (update_page_actions (update_page_actions
        (fun _ => none : PagesDB Nat) "u" [2] (some "b")) "u" [1] (some "a")) "u" :=
  ⟨by decide, by decide, by decide,
   c7_merge_commutes_amended (fun _ => none) "u" [1] [2] (some "a") (some "b")
     (by decide) (by decide) (by decide)⟩

/-- A field satisfying the specification's sensitivity condition also
satisfies the injected script's `isSensitive` (the code checks the same
attributes plus the type string). -/
theorem isSensitive_of_specSensitive (el : Element)
    (h : specSensitive el = true) : isSensitive el = true := by
  unfold specSensitive at h
  unfold isSensitive
  simp only [Bool.or_eq_true, List.any_eq_true] at h ⊢
  rcases h with h | ⟨x, hx, hk⟩
  · exact Or.inl h
  · refine Or.inr ⟨x, ?_, hk⟩
    simp only [List.mem_cons, List.not_mem_nil, or_false] at hx ⊢
    tauto

/-- C4 (amended): for every field that is sensitive in the specification's
sense and is not a select element, the generated payload value is only ever
the mask token `"***"` — the real value never appears — both in
`input`/`change` payloads (where checkbox/radio controls carry no value
string at all) and in every submit-payload entry (`submitFields` maps
`submitField` over the form's controls, so this covers each entry of the
gathered field list).  Select elements are the exception the counterexample
forces: the script records their selected value unmasked. -/
theorem c4_sensitive_masked_amended (el : Element)
    (hs : specSensitive el = true) (hsel : tagLower el ≠ "select") :
    (inputChangeData el).value.getD "***" = "***" ∧
    fieldValMasked (submitField el).value = true := by
  have hsens : isSensitive el = true := isSensitive_of_specSensitive el hs
  constructor
  · simp only [inputChangeData, hsens, if_neg hsel]
    split_ifs <;> simp
  · simp only [submitField, hsens, fieldValMasked]
    split_ifs <;> simp [fieldValMasked, hsel]

/-- A select element whose name contains the sensitivity keyword `token`,
holding a real value. -/
def tokenSelect : Element :=
  { name := "token", id := "", type := "select-one", placeholder := "",
    autocomplete := "", ariaLabel := "", tagName := "SELECT",
    value := "realsecret", selectedText := "Real secret", checked := false }

/-- Counterexample to C4 as stated: a `change` Action on a select named
`token` is sensitive in the claim's sense, yet its payload carries the real
value, not the mask. -/
theorem c4_counterexample :
    specSensitive tokenSelect = true ∧
    (inputChangeData tokenSelect).value = some "realsecret" ∧
    ("realsecret" : String) ≠ "***" := by
  refine ⟨?_, ?_, ?_⟩ <;> decide

/-- A password input holding a real value, witnessing the amended C4. -/
def pwField : Element :=
  { name := "user_password", id := "pw", type := "password", placeholder := "",
    autocomplete := "current-password", ariaLabel := "", tagName := "INPUT",
    value := "hunter2", selectedText := "", checked := false }

/-- Witness for the amended C4 on a concrete password field. -/
theorem c4_witness :
    specSensitive pwField = true ∧ tagLower pwField ≠ "select" ∧
    ((inputChangeData pwField).value.getD "***" = "***" ∧
     fieldValMasked (submitField pwField).value = true) :=
  ⟨by decide, by decide,
   c4_sensitive_masked_amended pwField (by decide) (by decide)⟩

/-- Witness for the amended C3 on the empty buffer and table. -/
theorem c3_witness :
    ("u" : String) ≠ "" ∧ ([5] : List Nat) ≠ [] ∧
    sessList (process_new_actions (fun _ => none : ActionLogs Nat)
        (fun _ => none : PagesDB Nat) "u" [5]).2 "u" "session_unknown"
      = some (.lst [5]) ∧
    sessList (process_new_actions (fun _ => none : ActionLogs Nat)
        (fun _ => none : PagesDB Nat) "u" [5]).2 "u" "s1" = none :=
  ⟨by decide, by decide,
   (c3_amended_stored_under_fallback_key (fun _ => none) (fun _ => none) "u" [5]
     (by decide) (by decide) rfl rfl).1,
   (c3_amended_stored_under_fallback_key (fun _ => none) (fun _ => none) "u" [5]
     (by decide) (by decide) rfl rfl).2 "s1" (by decide)⟩


/-- C9: with a dialog pending, one poll iteration ends as `alertHandled`
(the `continue` that skips tab enumeration and the inter-cycle pause and
retries the poll immediately): exactly one alert-tagged record carrying the
dialog text is appended, the dialog is accepted — the dismiss counter never
moves — and the tabs, buffers and table are untouched this cycle; with no
dialog pending, `check_alerts` reports not handled and changes nothing. -/
theorem c9_alert_cycle (st : SysState α) :
    (∀ text, st.pendingDialog = some text →
      (loopIteration st).2 = CycleOutcome.alertHandled ∧
      (loopIteration st).1.records = st.records ++
        [{ url := st.currentUrl ++ "#alert-" ++ toString st.clock,
           isAlert := true, text := text, referrer := some st.currentUrl,
           sessionId := st.currentSession }] ∧
      (loopIteration st).1.tabs = st.tabs ∧
      (loopIteration st).1.db = st.db ∧
      (loopIteration st).1.page_action_logs = st.page_action_logs ∧
      (loopIteration st).1.pendingDialog = none ∧
      (loopIteration st).1.acceptedDialogs = st.acceptedDialogs + 1 ∧
      (loopIteration st).1.dismissedDialogs = st.dismissedDialogs) ∧
    (st.pendingDialog = none → check_alerts st = (false, st)) := by
  constructor
  · intro text h
    simp [loopIteration, check_alerts, record_action, h]
  · intro h
    simp [check_alerts, h]

/-- Concrete worker state with a pending dialog, witnessing C9. -/
def c9st : SysState Nat :=
  { tabs := [], currentUrl := "u", pendingDialog := some "boom",
    knownWindows := [], page_action_logs := fun _ => none,
    db := fun _ => none, records := [], processedUrls := fun _ => none,
    lastUrl := "u", currentSession := some "s1", acceptedDialogs := 0,
    dismissedDialogs := 0, clock := 3 }

/-- Witness for C9 at a concrete dialog and at the same state with the
dialog absent. -/
theorem c9_witness :
    ((loopIteration c9st).2 = CycleOutcome.alertHandled ∧
     (loopIteration c9st).1.records = c9st.records ++
       [{ url := c9st.currentUrl ++ "#alert-" ++ toString c9st.clock,
          isAlert := true, text := "boom", referrer := some c9st.currentUrl,
          sessionId := c9st.currentSession }] ∧
     (loopIteration c9st).1.tabs = c9st.tabs ∧
     (loopIteration c9st).1.db = c9st.db ∧
     (loopIteration c9st).1.page_action_logs = c9st.page_action_logs ∧
     (loopIteration c9st).1.pendingDialog = none ∧
     (loopIteration c9st).1.acceptedDialogs = c9st.acceptedDialogs + 1 ∧
     (loopIteration c9st).1.dismissedDialogs = c9st.dismissedDialogs) ∧
    check_alerts { c9st with pendingDialog := none } =
      (false, { c9st with pendingDialog := none }) :=
  ⟨(c9_alert_cycle c9st).1 "boom" rfl,
   (c9_alert_cycle { c9st with pendingDialog := none }).2 rfl⟩

/-- The window sweep never appends a result whose URL is `about:blank`. -/
theorem captureTabStep_no_blank_results (known : List String)
    (ts : List (Tab α)) (acc : CaptureAcc α)
    (h : ∀ r ∈ acc.results, r.url ≠ "about:blank") :
    ∀ r ∈ (ts.foldl (captureTabStep known) acc).results,
      r.url ≠ "about:blank" := by
  induction ts generalizing acc with
  | nil => simpa using h
  | cons t ts ih =>
      apply ih
      intro r hr
      simp only [captureTabStep] at hr
      split_ifs at hr with hb hp
      · exact h r hr
      · exact h r hr
      · rcases List.mem_append.mp hr with hr2 | hr2
        · exact h r hr2
        · rcases List.mem_singleton.mp hr2 with rfl
          exact hb

/-- C10: a capture cycle produces no result (hence no snapshot or sighting)
for any `about:blank` context, while the actions queued on a single such
context are still drained — its queue is cleared — and routed to
persistence under the `about:blank` URL. -/
theorem c10_about_blank_excluded (st : SysState α) :
    (∀ r ∈ (capture_all_tabs st).1, r.url ≠ "about:blank") ∧
    (∀ t q, st.tabs = [t] → t.url = "about:blank" → t.installed = true →
      t.queue = some q → q ≠ [] →
      st.page_action_logs "about:blank" = none →
      st.db "about:blank" = none →
      (capture_all_tabs st).2.tabs = [{ t with queue := some [] }] ∧
      (capture_all_tabs st).2.page_action_logs "about:blank" = some q ∧
      sessList (capture_all_tabs st).2.db "about:blank" "session_unknown"
        = some (.lst q)) := by
  constructor
  · intro r hr
    refine captureTabStep_no_blank_results st.knownWindows st.tabs _ ?_ r hr
    intro r' hr'
    simp at hr'
  · intro t q htabs hurl hinst hq hqne hlog hdb
    have hqe : ¬ q.isEmpty = true := by simp [hqne]
    refine ⟨?_, ?_, ?_⟩ <;>
      simp [capture_all_tabs, captureTabStep, inject_action_listeners,
        drain_action_queue, process_new_actions, update_page_actions,
        sessList, mergeObj, sessionKey, htabs, hurl, hinst, hq, hqe,
        hlog, hdb]

/-- Concrete `about:blank` tab with one queued action for C10. -/
def c10blank : Tab Nat :=
  { handle := "h", url := "about:blank", content := "", installed := true,
    queue := some [5] }

/-- Concrete worker state whose only context is the queued `about:blank`
tab. -/
def c10st : SysState Nat :=
  { tabs := [c10blank], currentUrl := "about:blank", pendingDialog := none,
    knownWindows := ["h"], page_action_logs := fun _ => none,
    db := fun _ => none, records := [], processedUrls := fun _ => none,
    lastUrl := "", currentSession := none, acceptedDialogs := 0,
    dismissedDialogs := 0, clock := 0 }

/-- An ordinary instrumented tab used by the C10 witness. -/
def c10plain : Tab Nat :=
  { handle := "h", url := "u", content := "c", installed := true,
    queue := some [] }

/-- Variant of the C10 state with an ordinary tab, to exercise the
no-blank-results half on a non-empty result list. -/
def c10st2 : SysState Nat :=
  { c10st with tabs := [c10plain] }

/-- Witness for C10: the single sweep result of the ordinary state is not
`about:blank`, and the queued `about:blank` state gets its queue drained
and its batch persisted under `about:blank` with no result produced. -/
theorem c10_witness :
    (({ url := "u", content := "c", isNew := false, events := [] } :
        TabResult Nat).url ≠ "about:blank") ∧
    ((capture_all_tabs c10st).2.tabs = [{ c10blank with queue := some [] }] ∧
     (capture_all_tabs c10st).2.page_action_logs "about:blank" = some [5] ∧
     sessList (capture_all_tabs c10st).2.db "about:blank" "session_unknown"
       = some (.lst [5])) :=
  ⟨(c10_about_blank_excluded c10st2).1 _ (by decide),
   (c10_about_blank_excluded c10st).2 c10blank [5] rfl rfl rfl rfl
     (by decide) rfl rfl⟩
